import Mathlib

/-!
# PodSearch — formal model of the queue/retry state machine, pipeline executor,
# embedding store, similarity ranking, and chunk boundary locators.

Shallow embedding of the JavaScript sources:
* `scripts/scheduler-step3.js` (process-one-episode run: DLQ lookup, permanent-failure
  migration, exponential backoff, success/failure queue and DLQ updates);
* `scripts/scheduler-step2.js` (queue building, `inDlq` flag);
* `scripts/process-queue.js` (pipeline executor: download → transcribe → embed → cleanup,
  and the embedding-store append in `generateEmbedding`);
* `scripts/search-chunks.js`, `scripts/search-playlist.js`, `scripts/search-and-play.js`
  (cosine similarity, duration estimation, chunk boundary locators).

Machine numbers are modelled as `ℕ`/`ℤ`/`ℚ` (exact) and, for the similarity score,
as real numbers with `none` standing for the non-finite double produced by a
zero-denominator division; JavaScript `Math.round` is `⌊x + 1/2⌋`.
-/

namespace PodSearch

/-! ## Scheduler state machine (`scheduler-step3.js`) -/

/-- `MAX_RETRIES = 5` from `scheduler-step3.js`. -/
def MAX_RETRIES : ℕ := 5

/-- `BACKOFF_MS = [1800000, 3600000, 7200000, 14400000, 28800000]`
(30m, 1h, 2h, 4h, 8h) from `scheduler-step3.js`. -/
def BACKOFF_MS : List ℕ := [1800000, 3600000, 7200000, 14400000, 28800000]

/-- A queue entry as built by `scheduler-step2.js`: the fields of
`{ simplifiedId, externalId, title, topic, audioUrl, inDlq }` that the state
machine inspects.  `inDlq` is frozen at queue-build time
(`inDlq: dlqIds.has(ep.externalId)`). -/
structure SEpisode where
  externalId : ℕ
  simplifiedId : ℕ
  inDlq : Bool
deriving DecidableEq, Repr

/-- A `dlq.json` record: `{ episode, error, retryCount, failedAt }`
(the error text and timestamp are not inspected by the state machine). -/
structure DlqEntry where
  episode : SEpisode
  retryCount : ℕ
deriving DecidableEq, Repr

/-- A `permanent-fail.json` record: `{ episode, error, failedAt }`. -/
structure PermEntry where
  episode : SEpisode
deriving DecidableEq, Repr

/-- The persistent stores read-modified-written by one `scheduler-step3.js` run:
`scheduler-queue.json`, `dlq.json`, `permanent-fail.json`, `processed-episodes.json`. -/
structure SchedState where
  queue : List SEpisode
  dlq : List DlqEntry
  permanentFail : List PermEntry
  processed : List ℕ
deriving DecidableEq, Repr

/-- The backoff applied before the pipeline runs, from `scheduler-step3.js`:
`if (inDlq && retryCount > 0) { const backoff = BACKOFF_MS[Math.min(retryCount - 1, BACKOFF_MS.length - 1)]; await sleep(backoff); }`. -/
def backoffDelay (inDlq : Bool) (retryCount : ℕ) : ℕ :=
  if inDlq = true ∧ 0 < retryCount then BACKOFF_MS.getD (min (retryCount - 1) 4) 0
  else 0

/-- One run of `main()` in `scheduler-step3.js`, parameterised by whether the
`transcribe.js` pipeline invocation succeeds (`pipelineOk`).  Returns the new
store state together with the backoff wait (ms) that the run slept. -/
def step (s : SchedState) (pipelineOk : Bool) : SchedState × ℕ :=
  match s.queue with
  | [] => (s, 0)
  | episode :: rest =>
    -- const dlqEntry = dlq.find(d => d.episode?.externalId === externalId);
    let dlqEntry := s.dlq.find? (fun d => d.episode.externalId = episode.externalId)
    -- const retryCount = dlqEntry?.retryCount || 0;
    let retryCount := (dlqEntry.map DlqEntry.retryCount).getD 0
    if MAX_RETRIES ≤ retryCount then
      -- permanentFail.push({episode, ...}); queue.shift(); dlq.filter(...)
      ({ queue := rest
         dlq := s.dlq.filter (fun d => ¬ d.episode.externalId = episode.externalId)
         permanentFail := s.permanentFail ++ [⟨episode⟩]
         processed := s.processed }, 0)
    else
      let wait := backoffDelay episode.inDlq retryCount
      if pipelineOk then
        -- processed.push; queue.shift(); if (dlqEntry) dlq.filter(...)
        ({ queue := rest
           dlq := if dlqEntry.isSome then
                    s.dlq.filter (fun d => ¬ d.episode.externalId = episode.externalId)
                  else s.dlq
           permanentFail := s.permanentFail
           processed := if episode.simplifiedId ∈ s.processed then s.processed
                        else s.processed ++ [episode.simplifiedId] }, wait)
      else
        -- newDlq = dlq.filter(...); newDlq.push({episode, retryCount: retryCount+1});
        -- queue.push(queue.shift());
        ({ queue := rest ++ [episode]
           dlq := s.dlq.filter (fun d => ¬ d.episode.externalId = episode.externalId)
                    ++ [⟨episode, retryCount + 1⟩]
           permanentFail := s.permanentFail
           processed := s.processed }, wait)

/-- External ids referenced by the active queue. -/
def queueIds (s : SchedState) : List ℕ := s.queue.map SEpisode.externalId

/-- External ids referenced by the DLQ. -/
def dlqIds (s : SchedState) : List ℕ := s.dlq.map (fun d => d.episode.externalId)

/-- External ids referenced by the permanent-failure store. -/
def pfIds (s : SchedState) : List ℕ := s.permanentFail.map (fun p => p.episode.externalId)

/-- The permanent-failure store is mutually exclusive with the queue and the DLQ. -/
def PermExclusive (s : SchedState) : Prop :=
  ∀ x ∈ pfIds s, x ∉ queueIds s ∧ x ∉ dlqIds s

/-- A fresh, never-failed queue entry used in concrete runs. -/
def e0 : SEpisode := ⟨1, 1, false⟩

/-- State with `e0` freshly queued and all other stores empty. -/
def s0 : SchedState := ⟨[e0], [], [], []⟩

/-- An entry whose `inDlq` flag was set at queue-build time and that has
exhausted its retry budget in the DLQ. -/
def e1 : SEpisode := ⟨2, 2, true⟩

/-- State with `e1` queued and a DLQ record carrying `retryCount = 5`. -/
def s1 : SchedState := ⟨[e1], [⟨e1, 5⟩], [], []⟩

/-! ## Embedding store (`process-queue.js`, `generateEmbedding`) -/

/-- `(episode.topic || 'unknown').replace(/[^a-z]/g, '_').substring(0, 20)`. -/
def sanitizeTopic (topic : String) : String :=
  String.mk (((if topic = "" then "unknown" else topic).toList.map
    (fun c => if 'a' ≤ c ∧ c ≤ 'z' then c else '_')).take 20)

/-- `String(episodeNum).padStart(3, '0')`. -/
def pad3 (n : ℕ) : String :=
  let s := toString n
  String.mk (List.replicate (3 - s.length) '0') ++ s

/-- An `embeddings.json` record: the fields the store logic inspects
(`episodeId`, `topic`) plus the episode's external id standing in for the
remaining metadata and vector payload. -/
structure EmbeddingRecord where
  episodeId : String
  topic : String
  externalId : ℕ
deriving DecidableEq, Repr

/-- The derived id in `generateEmbedding`:
`const topicEps = embeddings.filter(e => e.topic === episode.topic);`
`const finalId = safeTopic + '_' + String(topicEps.length + 1).padStart(3, '0')`. -/
def mkFinalId (store : List EmbeddingRecord) (topic : String) : String :=
  sanitizeTopic topic ++ "_" ++ pad3 ((store.filter (fun e => e.topic = topic)).length + 1)

/-- The store mutation in `generateEmbedding`: `embeddings.push({episodeId: finalId, ...})`
followed by `saveEmbeddings(embeddings)`. -/
def appendEmbedding (store : List EmbeddingRecord) (topic : String) (externalId : ℕ) :
    List EmbeddingRecord :=
  store ++ [⟨mkFinalId store topic, topic, externalId⟩]

/-! ## Pipeline executor (`process-queue.js`, `processOne`) -/

/-- Queue-entry status values in `processing-queue.json`. -/
inductive QStatus where
  | pending
  | processing
  | completed
  | error
deriving DecidableEq, Repr

/-- The external world and file system as seen by one `processOne` run. -/
structure PipeEnv where
  /-- `episodesMap.get(pending.externalId)` is defined. -/
  episodeFound : Bool
  /-- `episode.audioUrl` is truthy. -/
  audioUrl : Bool
  /-- the scratch audio file already exists on disk. -/
  audioExists : Bool
  /-- the `curl` download succeeds. -/
  downloadOk : Bool
  /-- the transcript file already exists on disk. -/
  transcriptExists : Bool
  /-- the Whisper API call succeeds (a transcript file gets written). -/
  transcribeOk : Bool
  /-- the transcript text contains a timestamp marker (`[00:` or `-->`). -/
  transcriptValid : Bool
  /-- the embeddings API returns a vector. -/
  embedOk : Bool
deriving DecidableEq, Repr

/-- Step 3 of the executor, `generateEmbedding(episode, episodeId)`:
missing transcript → `null`; transcript without a timestamp marker → `null`;
otherwise call the embedding API and push the record, or raise. -/
def generateEmbedding (transcriptFile transcriptValid embedOk : Bool)
    (topic : String) (externalId : ℕ) (store : List EmbeddingRecord) :
    Except String (Option String × List EmbeddingRecord) :=
  if transcriptFile = false then .ok (none, store)
  else if transcriptValid = false then .ok (none, store)
  else if embedOk then .ok (some (mkFinalId store topic), appendEmbedding store topic externalId)
  else .error "embedding request failed"

/-- Outcome of one `processOne` run: the queue entry's final status and
`embeddingId`, whether the scratch audio/transcript files remain on disk,
and the embedding store contents. -/
structure PipeResult where
  status : QStatus
  embeddingId : Option String
  audioFile : Bool
  transcriptFile : Bool
  store : List EmbeddingRecord
deriving DecidableEq, Repr

/-- `processOne()` from `process-queue.js`: claim the pending entry (status set
to `processing` and saved), then
`try { downloadAudio; transcribeAudio; generateEmbedding; cleanup; status = completed }`
`catch { status = error }`.  `cleanup` (delete scratch audio and transcript)
is the last statement inside the `try`.

`downloadAudio` returns the path synchronously when the audio file already
exists; otherwise it builds a Promise whose executor calls
`execSync(curl..., (err) => ...)`.  `execSync` ignores the callback, so when
the fresh download *succeeds* neither `resolve` nor `reject` ever runs: the
`await` never settles and the run stalls with the entry left at `processing`
(the downloaded audio on disk, nothing else written).  When `execSync` throws
(curl fails), the throw inside the executor rejects the promise and the
`catch` records an error. -/
def processOne (env : PipeEnv) (topic : String) (externalId : ℕ)
    (store : List EmbeddingRecord) : PipeResult :=
  if env.episodeFound = false then
    -- `if (!episode) { pending.status = 'error'; ... }` — nothing ran
    ⟨.error, none, env.audioExists, env.transcriptExists, store⟩
  else if env.audioUrl = false then
    -- `throw new Error('No audio URL')`
    ⟨.error, none, env.audioExists, env.transcriptExists, store⟩
  else if env.audioExists = false then
    if env.downloadOk then
      -- fresh download succeeded: the promise never settles; the run stalls
      -- forever with the entry still marked `processing`
      ⟨.processing, none, true, env.transcriptExists, store⟩
    else
      -- `execSync` threw inside the executor: promise rejected, catch runs
      ⟨.error, none, false, env.transcriptExists, store⟩
  else if (env.transcriptExists || env.transcribeOk) = false then
    -- transcribe step raised with the scratch audio already on disk
    ⟨.error, none, true, false, store⟩
  else
    -- transcript file exists now (pre-existing or freshly written)
    match generateEmbedding true env.transcriptValid env.embedOk topic externalId store with
    | .error _ => ⟨.error, none, true, true, store⟩
    | .ok (embeddingId, store') =>
      -- `cleanup(...)` deletes both scratch files, then the entry completes
      ⟨.completed, embeddingId, false, false, store'⟩

/-! ## Similarity (`search-chunks.js`, `cosineSimilarity`)

The JavaScript computes over IEEE doubles; the model idealises finite values
as exact real numbers, but keeps the one non-finite outcome the function can
produce: dividing by a zero denominator never yields a finite double
(`0/0 = NaN`, `x/0 = ±Infinity`), modelled as `none`. -/

/-- IEEE division as used in `cosineSimilarity`: `some` of the real quotient
for a nonzero divisor, `none` (a non-finite double — NaN here, since the
numerator is also 0 whenever the norm product is) for division by zero. -/
noncomputable def jsDiv (x y : ℝ) : Option ℝ :=
  if y = 0 then none else some (x / y)

/-- The accumulated `dot` (`dot += a[i] * b[i]` over the common prefix). -/
noncomputable def dotList (a b : List ℝ) : ℝ :=
  (List.zipWith (fun x y => x * y) a b).sum

/-- `cosineSimilarity(a, b)` from `search-chunks.js`:
`if (a.length !== b.length) return 0;` then
`dot / (Math.sqrt(normA) * Math.sqrt(normB))`. -/
noncomputable def cosineSimilarity (a b : List ℝ) : Option ℝ :=
  if a.length = b.length then
    jsDiv (dotList a b) (Real.sqrt (dotList a a) * Real.sqrt (dotList b b))
  else some 0

/-! ## Duration estimation and chunk boundary locators -/

/-- The fallback chain shared by `estimateDuration` in `search-chunks.js`:
an `"N min"` match in the description gives `N * 60`, else the 1800 s default.
`descMinutes` is the parsed capture of `/(\d+)\s*min/i` when the description
is present and matches. -/
def descFallback (descMinutes : Option ℕ) : ℤ :=
  match descMinutes with
  | some n => (n : ℤ) * 60
  | none => 1800

/-- `estimateDuration(episode)` from `search-chunks.js`.  `duration` is the
episode's explicit field as stored by the fetcher (`parseInt(...) || null`);
the `episode.duration` truthiness test makes `0` fall through, and the parsed
value is returned only when `d > 60`. -/
def estimateDuration (duration : Option ℤ) (descMinutes : Option ℕ) : ℤ :=
  match duration with
  | some d => if d ≠ 0 ∧ 60 < d then d else descFallback descMinutes
  | none => descFallback descMinutes

/-- JavaScript `Math.round`: round half toward positive infinity. -/
def jsRound (q : ℚ) : ℤ := ⌊q + 1 / 2⌋

/-- The unrounded `(start, end)` computed by `findChunkBoundaries` in
`search-chunks.js` before the final `Math.round` calls. -/
def chunkCore (estimatedDuration chunkDuration : ℚ) : ℚ × ℚ :=
  -- `if (!estimatedDuration || estimatedDuration < MIN_DURATION) estimatedDuration = 120;`
  -- (for a numeric argument, falsy means 0, and 0 < 120: one test covers both)
  let est := if estimatedDuration < 120 then 120 else estimatedDuration
  let maxPossibleEnd := est - 30
  let end0 := 45 + chunkDuration
  -- `if (end > maxPossibleEnd) end = Math.max(INTRO_SKIP + 60, maxPossibleEnd);`
  let end1 := if maxPossibleEnd < end0 then max (45 + 60) maxPossibleEnd else end0
  let available := end1 - 45
  let start := 45 + max 0 ((available - chunkDuration) / 2)
  let end2 := min end1 maxPossibleEnd
  (start, end2)

/-- `findChunkBoundaries(estimatedDuration, chunkDuration)` from
`search-chunks.js` (the returned `start` and `end`, both `Math.round`ed). -/
def findChunkBoundaries_chunks (estimatedDuration chunkDuration : ℚ) : ℤ × ℤ :=
  (jsRound (chunkCore estimatedDuration chunkDuration).1,
   jsRound (chunkCore estimatedDuration chunkDuration).2)

/-- `findChunkBoundaries(estimatedDuration, chunkDuration)` from
`search-playlist.js`.  The short-episode branch returns unrounded values, the
centred branch returns `Math.round`ed ones. -/
def findChunkBoundaries_playlist (estimatedDuration chunkDuration : ℚ) : ℚ × ℚ :=
  let minStart : ℚ := 45
  let maxEnd := estimatedDuration - 30
  let availableDuration := maxEnd - minStart
  if availableDuration ≤ chunkDuration then
    (minStart, min (estimatedDuration - 30) (minStart + chunkDuration))
  else
    let idealStart := minStart + (availableDuration - chunkDuration) / 2
    ((jsRound idealStart : ℚ), (jsRound (idealStart + chunkDuration) : ℚ))

/-- `findNaturalBoundaries(targetSeconds, totalDuration, chunkDuration)` from
`search-and-play.js`: centre the window on the target, clamp to
`[INTRO_SKIP, totalDuration - OUTRO_SKIP]`, round.  (The `natural`/`reason`
fields of the JS result are not modelled.) -/
def findNaturalBoundaries (targetSeconds totalDuration chunkDuration : ℚ) : ℚ × ℚ :=
  let minStart : ℚ := 30
  let maxEnd := totalDuration - 30
  let idealStart0 := targetSeconds - chunkDuration / 2
  if maxEnd - minStart ≤ chunkDuration then
    -- episode shorter than chunk
    (minStart, min (totalDuration - 30) (minStart + chunkDuration))
  else
    let idealStart1 := max minStart (min idealStart0 (maxEnd - chunkDuration))
    let end0 := idealStart1 + chunkDuration
    -- `if (end > maxEnd) { end = maxEnd; idealStart = Math.max(minStart, end - chunkDuration); }`
    let p := if maxEnd < end0 then (max minStart (maxEnd - chunkDuration), maxEnd)
             else (idealStart1, end0)
    ((jsRound p.1 : ℚ), (jsRound p.2 : ℚ))

/-! ## Helper lemmas -/

theorem not_mem_map_filter_id {l : List DlqEntry} {x : ℕ} :
    x ∉ (l.filter (fun d => ¬ d.episode.externalId = x)).map
      (fun d => d.episode.externalId) := by
  intro hx
  rcases List.mem_map.mp hx with ⟨d, hd, hdx⟩
  rcases List.mem_filter.mp hd with ⟨-, hne⟩
  simp only [decide_eq_true_eq] at hne
  exact hne hdx

theorem mem_map_filter_sub {l : List DlqEntry} {x y : ℕ} :
    x ∈ (l.filter (fun d => ¬ d.episode.externalId = y)).map
      (fun d => d.episode.externalId)
    → x ∈ l.map (fun d => d.episode.externalId) := by
  intro hx
  rcases List.mem_map.mp hx with ⟨d, hd, hdx⟩
  exact List.mem_map.mpr ⟨d, (List.mem_filter.mp hd).1, hdx⟩

/-! ## C1 — lifecycle-store mutual exclusion -/

/-- C1, counterexample: starting from a clean single-entry state, one failed
run leaves the episode referenced by **both** the active queue (requeued at
the back) and the DLQ, so the three lifecycle stores are not mutually
exclusive between operations. -/
theorem C1_queue_dlq_overlap :
    e0.externalId ∈ queueIds (step s0 false).1
    ∧ e0.externalId ∈ dlqIds (step s0 false).1 := by
  decide

/-- C1, amended: the mutual exclusion the code maintains is between the
permanent-failure store and the other two — one `scheduler-step3.js` run
preserves "an episode in the permanent-failure store is referenced by
neither the queue nor the DLQ" (for queues without duplicate external ids),
while queue and DLQ may reference the same episode simultaneously. -/
theorem C1_perm_exclusive_preserved (s : SchedState) (o : Bool)
    (hnodup : (queueIds s).Nodup) (hinv : PermExclusive s) :
    PermExclusive (step s o).1 ∧ (queueIds (step s o).1).Nodup := by
  rcases s with ⟨q, d, pf, pr⟩
  rcases q with - | ⟨ep, rest⟩
  · exact ⟨hinv, hnodup⟩
  · simp only [queueIds, List.map_cons, List.nodup_cons] at hnodup
    simp only [step]
    split
    · -- permanent-failure migration branch
      constructor
      · intro x hx
        simp only [pfIds, List.map_append, List.map_cons, List.map_nil,
          List.mem_append, List.mem_singleton] at hx
        rcases hx with hx | hx
        · rcases hinv x (by simpa [pfIds] using hx) with ⟨hq, hd⟩
          simp only [queueIds, List.map_cons, List.mem_cons, not_or] at hq
          exact ⟨by simpa [queueIds] using hq.2,
                 fun hc => hd (mem_map_filter_sub (by simpa [dlqIds] using hc))⟩
        · subst hx
          exact ⟨by simpa [queueIds] using hnodup.1,
                 fun hc => not_mem_map_filter_id (by simpa [dlqIds] using hc)⟩
      · simpa [queueIds] using hnodup.2
    · split
      · -- success branch
        constructor
        · intro x hx
          rcases hinv x (by simpa [pfIds] using hx) with ⟨hq, hd⟩
          simp only [queueIds, List.map_cons, List.mem_cons, not_or] at hq
          refine ⟨by simpa [queueIds] using hq.2, ?_⟩
          simp only [dlqIds]
          split
          · exact fun hc => hd (mem_map_filter_sub (by simpa [dlqIds] using hc))
          · simpa [dlqIds] using hd
        · simpa [queueIds] using hnodup.2
      · -- failure branch: requeue at the back, upsert the DLQ record
        constructor
        · intro x hx
          rcases hinv x (by simpa [pfIds] using hx) with ⟨hq, hd⟩
          simp only [queueIds, List.map_cons, List.mem_cons, not_or] at hq
          constructor
          · simp only [queueIds, List.map_append, List.map_cons, List.map_nil,
              List.mem_append, List.mem_singleton]
            exact fun hc => hc.elim (fun h => hq.2 (by simpa [queueIds] using h))
              (fun h => hq.1 h)
          · simp only [dlqIds, List.map_append, List.map_cons, List.map_nil,
              List.mem_append, List.mem_singleton]
            exact fun hc => hc.elim
              (fun h => hd (mem_map_filter_sub (by simpa [dlqIds] using h)))
              (fun h => hq.1 h)
        · simp only [queueIds, List.map_append, List.map_cons, List.map_nil]
          exact (List.nodup_append_comm).mp
            (by simpa [List.nodup_cons, queueIds] using
              And.intro hnodup.1 hnodup.2)

/-- C1 amended, witness at the concrete clean state `s0` with a failing run. -/
theorem C1_perm_exclusive_witness :
    ((queueIds s0).Nodup ∧ PermExclusive s0)
    ∧ (PermExclusive (step s0 false).1 ∧ (queueIds (step s0 false).1).Nodup) :=
  ⟨⟨by decide, fun x hx => by simp [pfIds, s0] at hx⟩,
   C1_perm_exclusive_preserved s0 false (by decide) (fun x hx => by simp [pfIds, s0] at hx)⟩

/-! ## C2 — permanent-failure escalation -/

/-- C2: when the claimed (front) entry's DLQ retry count has reached
`MAX_RETRIES`, the run migrates it atomically: afterwards the episode appears
exactly once in the permanent-failure store and no longer in the active queue
or the DLQ. -/
theorem C2_escalation (s : SchedState) (o : Bool) (ep : SEpisode)
    (rest : List SEpisode) (hq : s.queue = ep :: rest)
    (hrc : MAX_RETRIES ≤
      (((s.dlq.find? (fun d => d.episode.externalId = ep.externalId)).map
        DlqEntry.retryCount).getD 0))
    (hnodup : (queueIds s).Nodup)
    (hnew : ep.externalId ∉ pfIds s) :
    (pfIds (step s o).1).count ep.externalId = 1
    ∧ ep.externalId ∉ queueIds (step s o).1
    ∧ ep.externalId ∉ dlqIds (step s o).1 := by
  rcases s with ⟨q, d, pf, pr⟩
  subst hq
  simp only [queueIds, List.map_cons, List.nodup_cons] at hnodup
  simp only [step, hrc, if_pos]
  refine ⟨?_, ?_, ?_⟩
  · simp only [pfIds, List.map_append, List.map_cons, List.map_nil]
    rw [List.count_append]
    simp only [pfIds] at hnew
    rw [List.count_eq_zero.mpr hnew]
    simp
  · simpa [queueIds] using hnodup.1
  · exact fun hc => not_mem_map_filter_id (by simpa [dlqIds] using hc)

/-- C2, witness: the concrete state `s1` (entry `e1` queued, DLQ retry count
already 5) migrates on the next run. -/
theorem C2_escalation_witness :
    (s1.queue = e1 :: [] ∧
     MAX_RETRIES ≤ (((s1.dlq.find? (fun d => d.episode.externalId = e1.externalId)).map
        DlqEntry.retryCount).getD 0) ∧
     (queueIds s1).Nodup ∧ e1.externalId ∉ pfIds s1)
    ∧ ((pfIds (step s1 true).1).count e1.externalId = 1
       ∧ e1.externalId ∉ queueIds (step s1 true).1
       ∧ e1.externalId ∉ dlqIds (step s1 true).1) :=
  ⟨⟨by decide, by decide, by decide, by decide⟩,
   C2_escalation s1 true e1 [] (by decide) (by decide) (by decide) (by decide)⟩

/-! ## C3 — backoff schedule -/

/-- C3, counterexample: after `e0` fails once, its DLQ record carries
`retryCount = 1 > 0` and it sits requeued at the front, yet the next run
sleeps 0 ms — not the claimed `BACKOFF_MS[min(retryCount-1, 4)] = 1800000` —
because the entry's `inDlq` flag (frozen at queue-build time) is `false`. -/
theorem C3_no_backoff_for_requeued :
    ((step s0 false).1.dlq.find? (fun d =>
        d.episode.externalId = e0.externalId)).map DlqEntry.retryCount = some 1
    ∧ (step s0 false).1.queue = [e0]
    ∧ (step (step s0 false).1 true).2 = 0
    ∧ BACKOFF_MS.getD (min (1 - 1) 4) 0 = 1800000
    ∧ (0 : ℕ) ≠ 1800000 := by
  refine ⟨by decide, by decide, by decide, by decide, by decide⟩

/-- C3, amended: the wait before a reattempt is
`BACKOFF_MS[min(retryCount-1, 4)]` only for entries whose `inDlq` flag was set
when the queue was built; with `inDlq = false` no wait is applied even when
`retryCount > 0`, and `retryCount = 0` never waits.  The schedule
`[30m, 1h, 2h, 4h, 8h]` is non-decreasing and capped at 8h. -/
theorem C3_backoff_schedule (rc : ℕ) (h : 0 < rc) :
    backoffDelay true rc = BACKOFF_MS.getD (min (rc - 1) 4) 0
    ∧ backoffDelay false rc = 0
    ∧ (∀ b : Bool, backoffDelay b 0 = 0)
    ∧ (∀ i j : ℕ, i ≤ j →
        BACKOFF_MS.getD (min i 4) 0 ≤ BACKOFF_MS.getD (min j 4) 0)
    ∧ (∀ k : ℕ, 4 ≤ k → BACKOFF_MS.getD (min k 4) 0 = 28800000) := by
  refine ⟨by simp [backoffDelay, h], by simp [backoffDelay], by simp [backoffDelay], ?_, ?_⟩
  · have key : ∀ n : ℕ, BACKOFF_MS.getD (min n 4) 0 =
        if n = 0 then 1800000 else if n = 1 then 3600000
        else if n = 2 then 7200000 else if n = 3 then 14400000 else 28800000 := by
      intro n
      rcases n with - | - | - | - | n
      · rfl
      · rfl
      · rfl
      · rfl
      · rw [min_eq_right (by omega : 4 ≤ n + 1 + 1 + 1 + 1)]
        simp [BACKOFF_MS]
    intro i j hij
    rw [key i, key j]
    split_ifs <;> omega
  · intro k hk
    rw [min_eq_right hk]
    rfl

/-- C3 amended, witness at `retryCount = 3`. -/
theorem C3_backoff_schedule_witness :
    0 < 3 ∧ backoffDelay true 3 = BACKOFF_MS.getD (min (3 - 1) 4) 0 :=
  ⟨by decide, (C3_backoff_schedule 3 (by decide)).1⟩

/-! ## C4 — embedding-store append -/

/-- C4, counterexample: the store append is a plain `push`, not an
insert-or-replace.  Two episodes with distinct topics `"a b"` and `"a-b"`
(equal after `[^a-z] → '_'` sanitisation, each first of its own topic) both
derive `simplifiedId = "a_b_001"`, so after two appends the store holds two
records with the same simplifiedId and the first record was not replaced. -/
theorem C4_duplicate_simplifiedId :
    (appendEmbedding (appendEmbedding [] "a b" 10) "a-b" 11).map
      EmbeddingRecord.episodeId = ["a_b_001", "a_b_001"]
    ∧ ¬ ((appendEmbedding (appendEmbedding [] "a b" 10) "a-b" 11).map
      EmbeddingRecord.episodeId).Nodup := by
  refine ⟨by decide, by decide⟩

/-- C4, amended: `generateEmbedding` always appends exactly one record with
the derived ordinal id and preserves every existing record — reprocessing
adds a new record rather than ever replacing one (last write does not win). -/
theorem C4_append_grows_store (store : List EmbeddingRecord) (topic : String)
    (externalId : ℕ) :
    (appendEmbedding store topic externalId).length = store.length + 1
    ∧ store <+: appendEmbedding store topic externalId
    ∧ (appendEmbedding store topic externalId).getLast? =
        some ⟨mkFinalId store topic, topic, externalId⟩ := by
  refine ⟨by simp [appendEmbedding], ⟨[⟨mkFinalId store topic, topic, externalId⟩], rfl⟩, ?_⟩
  simp [appendEmbedding]

/-! ## C8 — cleanup totality -/

/-- Environment in which the scratch audio is already on disk (e.g. left over
from an earlier run) but the Whisper call fails. -/
def envTranscribeFails : PipeEnv := ⟨true, true, true, false, false, false, false, false⟩

/-- C8, counterexample: when the Transcribe step raises, `processOne` takes the
`catch` path without ever reaching `cleanup`, so the scratch audio file is
left on disk — Cleanup does **not** run after every terminal outcome. -/
theorem C8_no_cleanup_on_error :
    (processOne envTranscribeFails "finance" 1 []).status = QStatus.error
    ∧ (processOne envTranscribeFails "finance" 1 []).audioFile = true := by
  refine ⟨by decide, by decide⟩

/-- C8, amended: the scratch audio and transcript artifacts are deleted on
every run whose entry completes (success or skip); on an error outcome the
`cleanup` step is skipped and scratch files may persist. -/
theorem C8_cleanup_on_completion (env : PipeEnv) (topic : String) (externalId : ℕ)
    (store : List EmbeddingRecord)
    (h : (processOne env topic externalId store).status = QStatus.completed) :
    (processOne env topic externalId store).audioFile = false
    ∧ (processOne env topic externalId store).transcriptFile = false := by
  unfold processOne at h ⊢
  split_ifs at h ⊢
  all_goals
    first
    | simp at h
    | · rcases hg : generateEmbedding true env.transcriptValid env.embedOk topic
          externalId store with msg | p
        · rw [hg] at h
          simp at h
        · rcases p with ⟨i, st⟩
          simp

/-- Environment in which every step succeeds. -/
def envAllOk : PipeEnv := ⟨true, true, true, true, true, true, true, true⟩

/-- C8 amended, witness: a fully successful run completes with both scratch
files deleted. -/
theorem C8_cleanup_witness :
    (processOne envAllOk "finance" 1 []).status = QStatus.completed
    ∧ ((processOne envAllOk "finance" 1 []).audioFile = false
       ∧ (processOne envAllOk "finance" 1 []).transcriptFile = false) :=
  ⟨by decide, C8_cleanup_on_completion envAllOk "finance" 1 [] (by decide)⟩

/-! ## C9 — skip, not error, for invalid transcripts -/

/-- C9: an absent transcript, or one without a timestamp marker, makes the
Embed step return `null` (a skip) instead of raising: the queue entry still
completes, the embedding store is untouched, and no error state (hence no DLQ
entry or retry anywhere downstream) is produced. -/
theorem C9_invalid_transcript_skips (env : PipeEnv) (topic : String)
    (externalId : ℕ) (store : List EmbeddingRecord)
    (h1 : env.episodeFound = true) (h2 : env.audioUrl = true)
    (h3 : env.audioExists = true)
    (h4 : (env.transcriptExists || env.transcribeOk) = true)
    (h5 : env.transcriptValid = false) :
    (processOne env topic externalId store).status = QStatus.completed
    ∧ (processOne env topic externalId store).embeddingId = none
    ∧ (processOne env topic externalId store).store = store
    ∧ (∀ tv eo : Bool,
        generateEmbedding false tv eo topic externalId store = .ok (none, store))
    ∧ (∀ eo : Bool,
        generateEmbedding true false eo topic externalId store = .ok (none, store)) := by
  simp [processOne, generateEmbedding, h1, h2, h3, h4, h5]

/-- Environment whose transcript exists but carries no timestamp marker. -/
def envInvalidTranscript : PipeEnv := ⟨true, true, true, true, true, true, false, true⟩

/-- C9, witness at a concrete environment with an invalid transcript. -/
theorem C9_invalid_transcript_witness :
    (envInvalidTranscript.episodeFound = true
     ∧ envInvalidTranscript.audioUrl = true
     ∧ envInvalidTranscript.audioExists = true
     ∧ (envInvalidTranscript.transcriptExists || envInvalidTranscript.transcribeOk) = true
     ∧ envInvalidTranscript.transcriptValid = false)
    ∧ ((processOne envInvalidTranscript "finance" 1 []).status = QStatus.completed
       ∧ (processOne envInvalidTranscript "finance" 1 []).embeddingId = none) :=
  ⟨⟨by decide, by decide, by decide, by decide, by decide⟩,
   ⟨(C9_invalid_transcript_skips envInvalidTranscript "finance" 1 []
      (by decide) (by decide) (by decide) (by decide) (by decide)).1,
    (C9_invalid_transcript_skips envInvalidTranscript "finance" 1 []
      (by decide) (by decide) (by decide) (by decide) (by decide)).2.1⟩⟩

/-! ## C10 — duration-estimation edge case -/

/-- C10: `estimateDuration` honours the explicit duration field only when it
parses to `d > 60`; any `d ≤ 60` (including `0`, which is falsy) falls back to
the `"N min"` description pattern (`N * 60`) and then to the 1800 s default. -/
theorem C10_small_duration_ignored (d : ℤ) (dm : Option ℕ) (h : d ≤ 60) :
    estimateDuration (some d) dm = descFallback dm
    ∧ (∀ d' : ℤ, 60 < d' → estimateDuration (some d') dm = d')
    ∧ (∀ n : ℕ, descFallback (some n) = (n : ℤ) * 60)
    ∧ descFallback none = 1800 := by
  refine ⟨?_, ?_, fun n => rfl, rfl⟩
  · have : ¬ (d ≠ 0 ∧ 60 < d) := fun hc => absurd hc.2 (not_lt.mpr h)
    simp [estimateDuration, this]
  · intro d' hd'
    have hne : d' ≠ 0 := by omega
    simp [estimateDuration, hne, hd']

/-- C10, witness at `d = 45` with a `"30 min"` description match. -/
theorem C10_small_duration_witness :
    (45 : ℤ) ≤ 60 ∧ estimateDuration (some 45) (some 30) = descFallback (some 30) :=
  ⟨by decide, (C10_small_duration_ignored 45 (some 30) (by decide)).1⟩

/-! ## C5 — cosine-similarity bounds -/

theorem dotList_cons (x y : ℝ) (a b : List ℝ) :
    dotList (x :: a) (y :: b) = x * y + dotList a b := by
  simp [dotList]

theorem dotList_self_nonneg (a : List ℝ) : 0 ≤ dotList a a := by
  induction a with
  | nil => simp [dotList]
  | cons x a ih =>
    rw [dotList_cons]
    have := mul_self_nonneg x
    linarith

theorem dotList_self_pos {a : List ℝ} (h : ∃ x ∈ a, x ≠ 0) : 0 < dotList a a := by
  induction a with
  | nil => simp at h
  | cons x a ih =>
    rw [dotList_cons]
    rcases h with ⟨y, hy, hy0⟩
    rcases List.mem_cons.mp hy with rfl | hmem
    · have h1 : 0 < y * y := mul_self_pos.mpr hy0
      have h2 := dotList_self_nonneg a
      linarith
    · have h1 := ih ⟨y, hmem, hy0⟩
      have h2 := mul_self_nonneg x
      linarith

/-- Cauchy–Schwarz for the accumulated dot products. -/
theorem dotList_sq_le (a b : List ℝ) : dotList a b ^ 2 ≤ dotList a a * dotList b b := by
  induction a generalizing b with
  | nil => simp [dotList]
  | cons x a ih =>
    rcases b with - | ⟨y, b⟩
    · simp [dotList]
    · rw [dotList_cons, dotList_cons, dotList_cons]
      have hD := ih b
      have hA := dotList_self_nonneg a
      have hB := dotList_self_nonneg b
      have hAB : 0 ≤ dotList a a * dotList b b - dotList a b ^ 2 := sub_nonneg.mpr hD
      rcases eq_or_lt_of_le hA with hA0 | hA0
      · have hD0 : dotList a b = 0 := by nlinarith [sq_nonneg (dotList a b)]
        rw [← hA0, hD0]
        nlinarith [mul_nonneg (mul_self_nonneg x) hB]
      · nlinarith [sq_nonneg (x * dotList a b - y * dotList a a),
          mul_nonneg (mul_self_nonneg x) hAB, mul_nonneg hA hAB]

/-- C5, counterexample: for the all-zero (equal-length, finite-entry) vector
`[0]`, both norms are 0 and the program computes `0 / 0 = NaN` (`none` in the
model) — a result that is not a real number in `[-1, 1]`, so the unrestricted
bounds part of the claim fails. -/
theorem C5_zero_vector_nan :
    cosineSimilarity [(0 : ℝ)] [(0 : ℝ)] = none
    ∧ ¬ ∃ r : ℝ, cosineSimilarity [(0 : ℝ)] [(0 : ℝ)] = some r ∧ -1 ≤ r ∧ r ≤ 1 := by
  have hd : dotList [(0 : ℝ)] [(0 : ℝ)] = 0 := by simp [dotList]
  have key : cosineSimilarity [(0 : ℝ)] [(0 : ℝ)] = none := by
    simp [cosineSimilarity, jsDiv, hd]
  refine ⟨key, ?_⟩
  rintro ⟨r, hr, -, -⟩
  rw [key] at hr
  exact Option.noConfusion hr

/-- C5, amended: `cosineSimilarity(v, v) = 1` for every vector with a nonzero
component; for equal-length vectors every *finite* result lies in `[-1, 1]`,
and the result is finite whenever both vectors have a nonzero component — the
only non-finite outcome is the NaN produced when a vector is all zeros. -/
theorem C5_cosine_bounds (v a b : List ℝ) (hv : ∃ x ∈ v, x ≠ 0)
    (hab : a.length = b.length) :
    cosineSimilarity v v = some 1
    ∧ (∀ r : ℝ, cosineSimilarity a b = some r → -1 ≤ r ∧ r ≤ 1)
    ∧ ((∃ x ∈ a, x ≠ 0) → (∃ x ∈ b, x ≠ 0) → ∃ r : ℝ, cosineSimilarity a b = some r) := by
  refine ⟨?_, ?_, ?_⟩
  · have hpos := dotList_self_pos hv
    rw [cosineSimilarity, if_pos rfl, Real.mul_self_sqrt hpos.le, jsDiv,
      if_neg hpos.ne', div_self hpos.ne']
  · intro r hr
    rw [cosineSimilarity, if_pos hab, jsDiv] at hr
    have hA := dotList_self_nonneg a
    have hnn : 0 ≤ Real.sqrt (dotList a a) * Real.sqrt (dotList b b) :=
      mul_nonneg (Real.sqrt_nonneg _) (Real.sqrt_nonneg _)
    by_cases h0 : Real.sqrt (dotList a a) * Real.sqrt (dotList b b) = 0
    · rw [if_pos h0] at hr
      exact Option.noConfusion hr
    · rw [if_neg h0] at hr
      have hden : 0 < Real.sqrt (dotList a a) * Real.sqrt (dotList b b) :=
        lt_of_le_of_ne hnn (Ne.symm h0)
      have hrq := Option.some.inj hr
      have habs : |dotList a b| ≤ Real.sqrt (dotList a a) * Real.sqrt (dotList b b) := by
        rw [← Real.sqrt_sq_eq_abs, ← Real.sqrt_mul hA]
        exact Real.sqrt_le_sqrt (dotList_sq_le a b)
      have hb2 := abs_le.mp habs
      subst hrq
      constructor
      · rw [le_div_iff₀ hden]
        linarith [hb2.1]
      · rw [div_le_one hden]
        exact hb2.2
  · intro ha hb
    have hden : Real.sqrt (dotList a a) * Real.sqrt (dotList b b) ≠ 0 :=
      (mul_pos (Real.sqrt_pos.mpr (dotList_self_pos ha))
        (Real.sqrt_pos.mpr (dotList_self_pos hb))).ne'
    exact ⟨_, by rw [cosineSimilarity, if_pos hab, jsDiv, if_neg hden]⟩

/-- C5 amended, witness at the one-dimensional vector `[1]`. -/
theorem C5_cosine_bounds_witness :
    ((∃ x ∈ [(1 : ℝ)], x ≠ 0) ∧ [(1 : ℝ)].length = [(1 : ℝ)].length)
    ∧ cosineSimilarity [(1 : ℝ)] [(1 : ℝ)] = some 1 :=
  ⟨⟨⟨1, by simp, one_ne_zero⟩, rfl⟩,
   (C5_cosine_bounds [1] [1] [1] ⟨1, by simp, one_ne_zero⟩ rfl).1⟩

/-! ## C6 — chunk windows -/

theorem jsRound_le (q : ℚ) : (jsRound q : ℚ) ≤ q + 1 / 2 :=
  Int.floor_le (q + 1 / 2)

theorem lt_jsRound (q : ℚ) : q - 1 / 2 < (jsRound q : ℚ) := by
  have h := Int.sub_one_lt_floor (q + 1 / 2)
  unfold jsRound
  linarith

/-- Pre-rounding window of `search-chunks.js`: for any estimated duration and
any requested chunk length `c ≥ 1`, the unrounded gap lies in `[1, c]`. -/
theorem chunkCore_gap (est c : ℚ) (hc : 1 ≤ c) :
    1 ≤ (chunkCore est c).2 - (chunkCore est c).1
    ∧ (chunkCore est c).2 - (chunkCore est c).1 ≤ c := by
  unfold chunkCore
  have hE : (120 : ℚ) ≤ (if est < 120 then 120 else est) := by
    split_ifs with h
    · norm_num
    · linarith [not_lt.mp h]
  set E := (if est < 120 then 120 else est) with hEdef
  clear_value E
  dsimp only
  simp only [min_def, max_def]
  split_ifs <;> constructor <;> linarith

/-- C6, counterexample: `findChunkBoundaries` in `search-playlist.js` (which
has no minimum-duration clamp) returns `end = 30 ≤ start = 45` for a 60-second
estimated duration with the default 300-second window. -/
theorem C6_playlist_end_before_start :
    findChunkBoundaries_playlist 60 300 = (45, 30)
    ∧ (findChunkBoundaries_playlist 60 300).2 ≤ (findChunkBoundaries_playlist 60 300).1 := by
  constructor
  · norm_num [findChunkBoundaries_playlist]
  · norm_num [findChunkBoundaries_playlist]

/-- C6, amended: for a requested window `c ≥ 1`, the `search-chunks.js`
locator always returns `start < end` with `end - start ≤ c + 1` (the 1 s slack
from rounding both ends); the `search-playlist.js` variant guarantees the same
only for estimated durations ≥ 120 s (below that it can return `end ≤ start`,
see the counterexample), and the `search-and-play.js` variant only for total
durations ≥ 61 s. -/
theorem C6_window_bounds (est total target c : ℚ) (hc : 1 ≤ c) :
    ((findChunkBoundaries_chunks est c).1 < (findChunkBoundaries_chunks est c).2
     ∧ (((findChunkBoundaries_chunks est c).2 - (findChunkBoundaries_chunks est c).1 : ℤ) : ℚ)
        ≤ c + 1)
    ∧ (120 ≤ est →
        (findChunkBoundaries_playlist est c).1 < (findChunkBoundaries_playlist est c).2
        ∧ (findChunkBoundaries_playlist est c).2 - (findChunkBoundaries_playlist est c).1
          ≤ c + 1)
    ∧ (61 ≤ total →
        (findNaturalBoundaries target total c).1 < (findNaturalBoundaries target total c).2
        ∧ (findNaturalBoundaries target total c).2 - (findNaturalBoundaries target total c).1
          ≤ c + 1) := by
  refine ⟨?_, ?_, ?_⟩
  · obtain ⟨hg1, hg2⟩ := chunkCore_gap est c hc
    have h1 := jsRound_le (chunkCore est c).1
    have h2 := lt_jsRound (chunkCore est c).1
    have h3 := jsRound_le (chunkCore est c).2
    have h4 := lt_jsRound (chunkCore est c).2
    unfold findChunkBoundaries_chunks
    constructor
    · exact_mod_cast show (jsRound (chunkCore est c).1 : ℚ) < jsRound (chunkCore est c).2
        by linarith
    · push_cast
      linarith
  · intro h120
    unfold findChunkBoundaries_playlist
    dsimp only
    split_ifs with hbr
    · dsimp only
      constructor
      · exact lt_min (by linarith) (by linarith)
      · have := min_le_right (est - 30) (45 + c)
        linarith
    · dsimp only
      have h1 := jsRound_le (45 + (est - 30 - 45 - c) / 2)
      have h2 := lt_jsRound (45 + (est - 30 - 45 - c) / 2)
      have h3 := jsRound_le (45 + (est - 30 - 45 - c) / 2 + c)
      have h4 := lt_jsRound (45 + (est - 30 - 45 - c) / 2 + c)
      constructor
      · exact_mod_cast show ((jsRound (45 + (est - 30 - 45 - c) / 2) : ℚ))
          < jsRound (45 + (est - 30 - 45 - c) / 2 + c) by linarith
      · linarith
  · intro h61
    unfold findNaturalBoundaries
    dsimp only
    split_ifs with hbr hin
    · dsimp only
      constructor
      · exact lt_min (by linarith) (by linarith)
      · have := min_le_right (total - 30) (30 + c)
        linarith
    · -- the inner clamp `end > maxEnd` is unreachable in the centred branch
      exfalso
      push_neg at hbr
      have hle : max (30 : ℚ) (min (target - c / 2) (total - 30 - c)) ≤ total - 30 - c :=
        max_le (by linarith) (min_le_right _ _)
      linarith
    · dsimp only
      have h1 := jsRound_le (max (30 : ℚ) (min (target - c / 2) (total - 30 - c)))
      have h2 := lt_jsRound (max (30 : ℚ) (min (target - c / 2) (total - 30 - c)))
      have h3 := jsRound_le (max (30 : ℚ) (min (target - c / 2) (total - 30 - c)) + c)
      have h4 := lt_jsRound (max (30 : ℚ) (min (target - c / 2) (total - 30 - c)) + c)
      constructor
      · exact_mod_cast show ((jsRound (max (30 : ℚ) (min (target - c / 2) (total - 30 - c))) : ℚ))
          < jsRound (max (30 : ℚ) (min (target - c / 2) (total - 30 - c)) + c) by linarith
      · linarith

/-- C6 amended, witness at the default configuration (300 s window, 1800 s /
3600 s durations, 310 s target). -/
theorem C6_window_bounds_witness :
    ((1 : ℚ) ≤ 300 ∧ (120 : ℚ) ≤ 1800 ∧ (61 : ℚ) ≤ 3600)
    ∧ (findChunkBoundaries_chunks 1800 300).1 < (findChunkBoundaries_chunks 1800 300).2
    ∧ (findChunkBoundaries_playlist 1800 300).1 < (findChunkBoundaries_playlist 1800 300).2
    ∧ (findNaturalBoundaries 310 3600 300).1 < (findNaturalBoundaries 310 3600 300).2 :=
  ⟨⟨by norm_num, by norm_num, by norm_num⟩,
   (C6_window_bounds 1800 3600 310 300 (by norm_num)).1.1,
   ((C6_window_bounds 1800 3600 310 300 (by norm_num)).2.1 (by norm_num)).1,
   ((C6_window_bounds 1800 3600 310 300 (by norm_num)).2.2 (by norm_num)).1⟩

/-! ## C7 — transcript-anchored start alignment -/

/-- C7, counterexample: with transcript segments at 310 s and 520 s and the
match target at 310 s (the spec's scenario; total duration 3600 s, 300 s
window), `findNaturalBoundaries` returns `start = 160` — the rounded clamp of
`T − W/2` — not the segment start 310: the locator never consults segment
boundaries. -/
theorem C7_start_ignores_segments :
    findNaturalBoundaries 310 3600 300 = (160, 460)
    ∧ (findNaturalBoundaries 310 3600 300).1 ≠ 310 := by
  constructor
  · norm_num [findNaturalBoundaries, jsRound]
  · norm_num [findNaturalBoundaries, jsRound]

/-- C7, amended: when the target sits far enough from both edges, the
returned window is the rounded `[T − W/2, T + W/2]` — centred on the match
and independent of any segment start times — and the match instant lies
inside the returned window. -/
theorem C7_window_centered (target total c : ℚ) (hc : 1 ≤ c)
    (h1 : 30 ≤ target - c / 2) (h2 : target - c / 2 ≤ total - 30 - c)
    (h3 : c < total - 60) :
    (findNaturalBoundaries target total c).1 = ((jsRound (target - c / 2) : ℤ) : ℚ)
    ∧ (findNaturalBoundaries target total c).2 = ((jsRound (target - c / 2 + c) : ℤ) : ℚ)
    ∧ (findNaturalBoundaries target total c).1 ≤ target
    ∧ target ≤ (findNaturalBoundaries target total c).2 := by
  unfold findNaturalBoundaries
  dsimp only
  rw [if_neg (by linarith : ¬ total - 30 - 30 ≤ c)]
  rw [min_eq_left h2, max_eq_right h1]
  rw [if_neg (by linarith : ¬ total - 30 < target - c / 2 + c)]
  refine ⟨rfl, rfl, ?_, ?_⟩
  · have := jsRound_le (target - c / 2)
    linarith
  · have := lt_jsRound (target - c / 2 + c)
    linarith

/-- C7 amended, witness at the spec's scenario inputs: the window centres on
the 310 s match (start 160, inside-window target), rather than snapping to a
segment boundary. -/
theorem C7_window_centered_witness :
    ((1 : ℚ) ≤ 300 ∧ (30 : ℚ) ≤ 310 - 300 / 2 ∧ (310 : ℚ) - 300 / 2 ≤ 3600 - 30 - 300
     ∧ (300 : ℚ) < 3600 - 60)
    ∧ (findNaturalBoundaries 310 3600 300).1 = ((jsRound (310 - 300 / 2) : ℤ) : ℚ)
    ∧ (findNaturalBoundaries 310 3600 300).1 ≤ 310 :=
  ⟨⟨by norm_num, by norm_num, by norm_num, by norm_num⟩,
   (C7_window_centered 310 3600 300 (by norm_num) (by norm_num) (by norm_num)
     (by norm_num)).1,
   (C7_window_centered 310 3600 300 (by norm_num) (by norm_num) (by norm_num)
     (by norm_num)).2.2.1⟩

end PodSearch
